import Mathlib

/-!
Verification of the kraken-client core against its specification.

The development shallowly embeds the two core components of the repository:

* `src/api/rate_limiter.rs` — the multi-tier token-bucket rate limiter.
  Machine integers (`u32`) are modeled as `Nat` with explicit `% 2 ^ 32`
  where overflow matters; `std::time::Instant` / `Duration` are modeled as
  exact nanosecond counts (`Nat`).  The `as_secs_f64` ratio followed by the
  truncating-saturating `as u32` cast is modeled as the exact rational
  floor, saturated at `u32` max (the cast saturates in Rust).

* `src/api/websocket.rs` together with `src/models/websocket.rs` — the
  streaming session: the `WebSocketApi` struct, its control operations,
  the reader-pump loop, and the message-classification chain.  The chain
  first runs `serde_json::from_str::<WebSocketMessage>`; since
  `WebSocketMessage` is a `#[serde(untagged)]` enum, serde tries the
  variants in declaration order and a struct variant deserializes from a
  JSON map (unknown keys ignored, duplicate known keys rejected, missing
  `Option` fields defaulting to `None`) or from a JSON sequence (fields in
  declaration order, exact length).  JSON parsing itself (the concern of
  the external serde_json crate) is abstracted: a text frame is embedded
  as `Option Json`, `none` standing for syntactically invalid text, on
  which all three `from_str` attempts of the pump fail alike.
-/

/-- JSON values, the model of `serde_json::Value`.  Numbers are modeled as
integers, which covers every numeric payload this protocol exchanges. -/
inductive Json where
  | null : Json
  | bool (b : Bool) : Json
  | num (n : Int) : Json
  | str (s : String) : Json
  | arr (elems : List Json) : Json
  | obj (fields : List (String × Json)) : Json

/-- The error enum of `src/error.rs`, restricted to the constructors the
streaming core produces (all of its failures use `Error::WebSocket`). -/
inductive Error where
  | webSocket (msg : String) : Error
deriving DecidableEq

/-- The `event` enum of `src/models/websocket.rs` (`WebSocketMessageType`),
with serde renames: lowercase, except `systemStatus` / `subscriptionStatus`. -/
inductive WebSocketMessageType where
  | subscribe
  | unsubscribe
  | ping
  | pong
  | heartbeat
  | systemStatus
  | subscriptionStatus
deriving DecidableEq

/-- The subscription-name enum (`WebSocketSubscriptionType`), lowercase
renames and `"*"` for `All`. -/
inductive WebSocketSubscriptionType where
  | ticker
  | ohlc
  | trade
  | spread
  | book
  | all
deriving DecidableEq

/-- The `WebSocketSubscription` struct: `name`, optional `interval`, optional
`depth` (both `u32` in the source). -/
structure WebSocketSubscription where
  name : WebSocketSubscriptionType
  interval : Option Nat
  depth : Option Nat
deriving DecidableEq

/-- The `WebSocketSubscriptionRequest` struct (`event`, `subscription`,
optional `pair`). -/
structure WebSocketSubscriptionRequest where
  event : WebSocketMessageType
  subscription : WebSocketSubscription
  pair : Option (List String)

/-- The `WebSocketUnsubscriptionRequest` struct. -/
structure WebSocketUnsubscriptionRequest where
  event : WebSocketMessageType
  subscription : WebSocketSubscription
  pair : Option (List String)

/-- The inbound message enum (`WebSocketMessage`), an untagged serde enum;
variant order is the declaration order in `src/models/websocket.rs`. -/
inductive WebSocketMessage where
  | systemStatus (event : String) (connection_id : Nat) (status : String) (version : String)
  | subscriptionStatus (channel_id : Option Nat) (channel_name : Option String)
      (event : String) (pair : Option String) (status : String)
      (subscription : WebSocketSubscription)
  | heartbeat (event_type : WebSocketMessageType)
  | ping (event_type : WebSocketMessageType) (req_id : Option Nat)
  | pong (event_type : WebSocketMessageType) (req_id : Option Nat)
  | error (event : String) (error_message : String) (status : String)
      (subscription : Option WebSocketSubscription) (pair : Option String)
  | dataArray (elems : List Json)
  | generic (value : Json)

/-! Field deserializers, following serde primitives. -/

/-- Deserialize a JSON value as a Rust `String`. -/
def deString : Json → Option String
  | .str s => some s
  | _ => none

/-- Deserialize a JSON value as a `u64`. -/
def deU64 : Json → Option Nat
  | .num n => if 0 ≤ n ∧ n < (2 : Int) ^ 64 then some n.toNat else none
  | _ => none

/-- Deserialize a JSON value as a `u32`. -/
def deU32 : Json → Option Nat
  | .num n => if 0 ≤ n ∧ n < (2 : Int) ^ 32 then some n.toNat else none
  | _ => none

/-- Deserialize an `Option<T>` field value: JSON `null` gives `None`,
anything else must deserialize as `T`. -/
def deOpt (f : Json → Option α) : Json → Option (Option α)
  | .null => some none
  | v => (f v).map some

/-- Deserialize a `WebSocketMessageType` (unit enum from its rename string). -/
def deMessageType : Json → Option WebSocketMessageType
  | .str "subscribe" => some .subscribe
  | .str "unsubscribe" => some .unsubscribe
  | .str "ping" => some .ping
  | .str "pong" => some .pong
  | .str "heartbeat" => some .heartbeat
  | .str "systemStatus" => some .systemStatus
  | .str "subscriptionStatus" => some .subscriptionStatus
  | _ => none

/-- Deserialize a `WebSocketSubscriptionType`. -/
def deSubscriptionType : Json → Option WebSocketSubscriptionType
  | .str "ticker" => some .ticker
  | .str "ohlc" => some .ohlc
  | .str "trade" => some .trade
  | .str "spread" => some .spread
  | .str "book" => some .book
  | .str "*" => some .all
  | _ => none

/-- Map-shaped deserialization of `WebSocketSubscription`: walk the entries,
fill each known field at most once (a duplicate known key is an error),
ignore unknown keys; at the end `name` must be present, missing `Option`
fields default to `none`. -/
def subscriptionFromFields : List (String × Json) → Option WebSocketSubscriptionType →
    Option (Option Nat) → Option (Option Nat) → Option WebSocketSubscription
  | [], some n, i?, d? => some ⟨n, i?.getD none, d?.getD none⟩
  | [], none, _, _ => none
  | (k, x) :: rest, n?, i?, d? =>
    if k = "name" then
      match n? with
      | some _ => none
      | none =>
        match deSubscriptionType x with
        | some n => subscriptionFromFields rest (some n) i? d?
        | none => none
    else if k = "interval" then
      match i? with
      | some _ => none
      | none =>
        match deOpt deU32 x with
        | some i => subscriptionFromFields rest n? (some i) d?
        | none => none
    else if k = "depth" then
      match d? with
      | some _ => none
      | none =>
        match deOpt deU32 x with
        | some d => subscriptionFromFields rest n? i? (some d)
        | none => none
    else subscriptionFromFields rest n? i? d?

/-- Sequence-shaped deserialization of `WebSocketSubscription`: fields in
declaration order, exact length (serde errors both on a missing element and
on a leftover one). -/
def subscriptionFromSeq : List Json → Option WebSocketSubscription
  | [x1, x2, x3] => do
    let n ← deSubscriptionType x1
    let i ← deOpt deU32 x2
    let d ← deOpt deU32 x3
    pure ⟨n, i, d⟩
  | _ => none

/-- Deserialize a `WebSocketSubscription` from a map or a sequence. -/
def deSubscription : Json → Option WebSocketSubscription
  | .obj fs => subscriptionFromFields fs none none none
  | .arr xs => subscriptionFromSeq xs
  | _ => none

/-! Matchers for the untagged `WebSocketMessage` variants, one per variant,
each accepting the map shape or the sequence shape. -/

/-- Map-shaped match of the `SystemStatus` variant: requires `event`,
`connectionID`, `status`, `version`. -/
def systemStatusFromFields : List (String × Json) → Option String → Option Nat →
    Option String → Option String → Option WebSocketMessage
  | [], some e, some c, some s, some ver => some (.systemStatus e c s ver)
  | [], _, _, _, _ => none
  | (k, x) :: rest, e?, c?, s?, ver? =>
    if k = "event" then
      match e? with
      | some _ => none
      | none =>
        match deString x with
        | some e => systemStatusFromFields rest (some e) c? s? ver?
        | none => none
    else if k = "connectionID" then
      match c? with
      | some _ => none
      | none =>
        match deU64 x with
        | some c => systemStatusFromFields rest e? (some c) s? ver?
        | none => none
    else if k = "status" then
      match s? with
      | some _ => none
      | none =>
        match deString x with
        | some s => systemStatusFromFields rest e? c? (some s) ver?
        | none => none
    else if k = "version" then
      match ver? with
      | some _ => none
      | none =>
        match deString x with
        | some ver => systemStatusFromFields rest e? c? s? (some ver)
        | none => none
    else systemStatusFromFields rest e? c? s? ver?

/-- The `SystemStatus` variant matcher. -/
def matchSystemStatus : Json → Option WebSocketMessage
  | .obj fs => systemStatusFromFields fs none none none none
  | .arr [x1, x2, x3, x4] => do
    let e ← deString x1
    let c ← deU64 x2
    let s ← deString x3
    let ver ← deString x4
    pure (.systemStatus e c s ver)
  | _ => none

/-- Map-shaped match of the `SubscriptionStatus` variant: requires `event`,
`status`, `subscription`; `channelID`, `channelName`, `pair` are optional. -/
def subscriptionStatusFromFields : List (String × Json) → Option (Option Nat) →
    Option (Option String) → Option String → Option (Option String) →
    Option String → Option WebSocketSubscription → Option WebSocketMessage
  | [], ci?, cn?, some e, p?, some s, some sub =>
    some (.subscriptionStatus (ci?.getD none) (cn?.getD none) e (p?.getD none) s sub)
  | [], _, _, _, _, _, _ => none
  | (k, x) :: rest, ci?, cn?, e?, p?, s?, sub? =>
    if k = "channelID" then
      match ci? with
      | some _ => none
      | none =>
        match deOpt deU64 x with
        | some ci => subscriptionStatusFromFields rest (some ci) cn? e? p? s? sub?
        | none => none
    else if k = "channelName" then
      match cn? with
      | some _ => none
      | none =>
        match deOpt deString x with
        | some cn => subscriptionStatusFromFields rest ci? (some cn) e? p? s? sub?
        | none => none
    else if k = "event" then
      match e? with
      | some _ => none
      | none =>
        match deString x with
        | some e => subscriptionStatusFromFields rest ci? cn? (some e) p? s? sub?
        | none => none
    else if k = "pair" then
      match p? with
      | some _ => none
      | none =>
        match deOpt deString x with
        | some p => subscriptionStatusFromFields rest ci? cn? e? (some p) s? sub?
        | none => none
    else if k = "status" then
      match s? with
      | some _ => none
      | none =>
        match deString x with
        | some s => subscriptionStatusFromFields rest ci? cn? e? p? (some s) sub?
        | none => none
    else if k = "subscription" then
      match sub? with
      | some _ => none
      | none =>
        match deSubscription x with
        | some sub => subscriptionStatusFromFields rest ci? cn? e? p? s? (some sub)
        | none => none
    else subscriptionStatusFromFields rest ci? cn? e? p? s? sub?

/-- The `SubscriptionStatus` variant matcher. -/
def matchSubscriptionStatus : Json → Option WebSocketMessage
  | .obj fs => subscriptionStatusFromFields fs none none none none none none
  | .arr [x1, x2, x3, x4, x5, x6] => do
    let ci ← deOpt deU64 x1
    let cn ← deOpt deString x2
    let e ← deString x3
    let p ← deOpt deString x4
    let s ← deString x5
    let sub ← deSubscription x6
    pure (.subscriptionStatus ci cn e p s sub)
  | _ => none

/-- Map-shaped match of the `Heartbeat` variant: the single required field is
`event`, whose value must be one of the `WebSocketMessageType` strings; other
keys are ignored. -/
def heartbeatFromFields : List (String × Json) → Option WebSocketMessageType →
    Option WebSocketMessageType
  | [], acc => acc
  | (k, x) :: rest, acc =>
    if k = "event" then
      match acc with
      | some _ => none
      | none =>
        match deMessageType x with
        | some et => heartbeatFromFields rest (some et)
        | none => none
    else heartbeatFromFields rest acc

/-- The `Heartbeat` variant matcher. -/
def matchHeartbeat : Json → Option WebSocketMessage
  | .obj fs => (heartbeatFromFields fs none).map .heartbeat
  | .arr [x1] => (deMessageType x1).map .heartbeat
  | _ => none

/-- Shared map-shaped match of the `Ping` / `Pong` variant shape: required
`event` (a `WebSocketMessageType`), optional `reqid` (`u64`). -/
def pingShapeFromFields : List (String × Json) → Option WebSocketMessageType →
    Option (Option Nat) → Option (WebSocketMessageType × Option Nat)
  | [], some et, r? => some (et, r?.getD none)
  | [], none, _ => none
  | (k, x) :: rest, et?, r? =>
    if k = "event" then
      match et? with
      | some _ => none
      | none =>
        match deMessageType x with
        | some et => pingShapeFromFields rest (some et) r?
        | none => none
    else if k = "reqid" then
      match r? with
      | some _ => none
      | none =>
        match deOpt deU64 x with
        | some r => pingShapeFromFields rest et? (some r)
        | none => none
    else pingShapeFromFields rest et? r?

/-- Shared sequence-shaped match of the `Ping` / `Pong` variant shape. -/
def pingShapeFromSeq : List Json → Option (WebSocketMessageType × Option Nat)
  | [x1, x2] => do
    let et ← deMessageType x1
    let r ← deOpt deU64 x2
    pure (et, r)
  | _ => none

/-- The `Ping` variant matcher. -/
def matchPing : Json → Option WebSocketMessage
  | .obj fs => (pingShapeFromFields fs none none).map fun p => .ping p.1 p.2
  | .arr xs => (pingShapeFromSeq xs).map fun p => .ping p.1 p.2
  | _ => none

/-- The `Pong` variant matcher. -/
def matchPong : Json → Option WebSocketMessage
  | .obj fs => (pingShapeFromFields fs none none).map fun p => .pong p.1 p.2
  | .arr xs => (pingShapeFromSeq xs).map fun p => .pong p.1 p.2
  | _ => none

/-- Map-shaped match of the `Error` variant: requires `event`, `errorMessage`,
`status`; `subscription` and `pair` are optional. -/
def errorFromFields : List (String × Json) → Option String → Option String →
    Option String → Option (Option WebSocketSubscription) → Option (Option String) →
    Option WebSocketMessage
  | [], some e, some m, some s, sub?, p? =>
    some (.error e m s (sub?.getD none) (p?.getD none))
  | [], _, _, _, _, _ => none
  | (k, x) :: rest, e?, m?, s?, sub?, p? =>
    if k = "event" then
      match e? with
      | some _ => none
      | none =>
        match deString x with
        | some e => errorFromFields rest (some e) m? s? sub? p?
        | none => none
    else if k = "errorMessage" then
      match m? with
      | some _ => none
      | none =>
        match deString x with
        | some m => errorFromFields rest e? (some m) s? sub? p?
        | none => none
    else if k = "status" then
      match s? with
      | some _ => none
      | none =>
        match deString x with
        | some s => errorFromFields rest e? m? (some s) sub? p?
        | none => none
    else if k = "subscription" then
      match sub? with
      | some _ => none
      | none =>
        match deOpt deSubscription x with
        | some sub => errorFromFields rest e? m? s? (some sub) p?
        | none => none
    else if k = "pair" then
      match p? with
      | some _ => none
      | none =>
        match deOpt deString x with
        | some p => errorFromFields rest e? m? s? sub? (some p)
        | none => none
    else errorFromFields rest e? m? s? sub? p?

/-- The `Error` variant matcher. -/
def matchError : Json → Option WebSocketMessage
  | .obj fs => errorFromFields fs none none none none none
  | .arr [x1, x2, x3, x4, x5] => do
    let e ← deString x1
    let m ← deString x2
    let s ← deString x3
    let sub ← deOpt deSubscription x4
    let p ← deOpt deString x5
    pure (.error e m s sub p)
  | _ => none

/-- Untagged deserialization of `WebSocketMessage`: the variants are tried in
declaration order; `DataArray(Vec<Value>)` accepts any JSON array and
`Generic(Value)` accepts anything, so on syntactically valid JSON the parse
always produces a message. -/
def deWebSocketMessage (v : Json) : WebSocketMessage :=
  match matchSystemStatus v with
  | some m => m
  | none =>
    match matchSubscriptionStatus v with
    | some m => m
    | none =>
      match matchHeartbeat v with
      | some m => m
      | none =>
        match matchPing v with
        | some m => m
        | none =>
          match matchPong v with
          | some m => m
          | none =>
            match matchError v with
            | some m => m
            | none =>
              match v with
              | .arr xs => .dataArray xs
              | _ => .generic v

/-- Whether one of the six structured control variants matches, i.e. whether
the untagged parse stops before its `DataArray` / `Generic` catch-alls. -/
def controlMatch (v : Json) : Bool :=
  (matchSystemStatus v).isSome || (matchSubscriptionStatus v).isSome ||
  (matchHeartbeat v).isSome || (matchPing v).isSome ||
  (matchPong v).isSome || (matchError v).isSome

/-- Error message of the final fallback of the reader-pump parse chain. -/
def failedParseMsg : String := "Failed to parse message"

/-- The reader-pump parse chain of `WebSocketApi::connect` applied to one
text frame.  The frame is given as its parse result (`none` = syntactically
invalid text).  On valid JSON, `from_str::<WebSocketMessage>` always succeeds
(untagged enum with a `Generic(Value)` catch-all), so the pump's array and
generic re-parses are unreachable there; on invalid text all three re-parses
fail and the pump forwards `Err(Error::WebSocket(..))`. -/
def classify : Option Json → Except Error WebSocketMessage
  | some v => .ok (deWebSocketMessage v)
  | none => .error (.webSocket failedParseMsg)

/-! Serialization (serde `Serialize` derives), used by `subscribe` /
`unsubscribe` before the outbound channel is consulted. -/

/-- Serialize a `WebSocketMessageType` to its rename string. -/
def WebSocketMessageType.toJson : WebSocketMessageType → Json
  | .subscribe => .str "subscribe"
  | .unsubscribe => .str "unsubscribe"
  | .ping => .str "ping"
  | .pong => .str "pong"
  | .heartbeat => .str "heartbeat"
  | .systemStatus => .str "systemStatus"
  | .subscriptionStatus => .str "subscriptionStatus"

/-- Serialize a `WebSocketSubscriptionType`. -/
def WebSocketSubscriptionType.toJson : WebSocketSubscriptionType → Json
  | .ticker => .str "ticker"
  | .ohlc => .str "ohlc"
  | .trade => .str "trade"
  | .spread => .str "spread"
  | .book => .str "book"
  | .all => .str "*"

/-- Serialize a `WebSocketSubscription`; `interval` / `depth` are skipped when
`None` (`skip_serializing_if`). -/
def WebSocketSubscription.toJson (s : WebSocketSubscription) : Json :=
  .obj ([("name", s.name.toJson)] ++
    (match s.interval with
     | some i => [("interval", Json.num i)]
     | none => []) ++
    (match s.depth with
     | some d => [("depth", Json.num d)]
     | none => []))

/-- Serialize a `WebSocketSubscriptionRequest`; `pair` is skipped when `None`. -/
def WebSocketSubscriptionRequest.toJson (r : WebSocketSubscriptionRequest) : Json :=
  .obj ([("event", r.event.toJson), ("subscription", r.subscription.toJson)] ++
    (match r.pair with
     | some ps => [("pair", Json.arr (ps.map Json.str))]
     | none => []))

/-- Serialize a `WebSocketUnsubscriptionRequest`. -/
def WebSocketUnsubscriptionRequest.toJson (r : WebSocketUnsubscriptionRequest) : Json :=
  .obj ([("event", r.event.toJson), ("subscription", r.subscription.toJson)] ++
    (match r.pair with
     | some ps => [("pair", Json.arr (ps.map Json.str))]
     | none => []))

/-- `WebSocketSubscriptionRequest::new()`: subscribe event, default ticker
subscription, no pairs. -/
def WebSocketSubscriptionRequest.new : WebSocketSubscriptionRequest :=
  ⟨.subscribe, ⟨.ticker, none, none⟩, none⟩

/-! The streaming session (`src/api/websocket.rs`). -/

/-- An outbound `tungstenite::Message` as produced by the session's control
operations (text payloads carried as their JSON value). -/
inductive OutMessage where
  | text (payload : Json)
  | ping (data : List Nat)
  | pong (data : List Nat)
  | close

/-- The single outbound `tokio::sync::mpsc` channel of a session: its queued
messages, and whether the receiving end (held by the writer pump, or dropped
when `connect` fails) is still alive — `Sender::send` errors exactly when it
is not. -/
structure MpscChannel where
  receiverAlive : Bool
  queue : List OutMessage

/-- The `WebSocketApi` struct: the configured URL and the optional stored
sender handle (`tx`).  The handle itself carries no data in this
single-channel model. -/
structure WebSocketApi where
  ws_url : String
  tx : Option Unit

/-- `WebSocketApi::new`: copies the configured URL; no channel yet. -/
def WebSocketApi.new (ws_url : String) : WebSocketApi :=
  ⟨ws_url, none⟩

/-- `Sender::send` on the outbound channel: enqueue if the receiver is alive
(the bounded capacity only suspends the sender, it never fails a send),
error if the receiver was dropped. -/
def mpscSend (ch : MpscChannel) (m : OutMessage) : Bool × MpscChannel :=
  if ch.receiverAlive then (true, { ch with queue := ch.queue ++ [m] })
  else (false, ch)

/-- Error message of a control call made with `self.tx == None`. -/
def notConnectedMsg : String := "Not connected to WebSocket"

/-- Error message when forwarding a subscription into a dead channel. -/
def sendSubscribeFailedMsg : String := "Failed to send subscription request"

/-- Error message when forwarding an unsubscription into a dead channel. -/
def sendUnsubscribeFailedMsg : String := "Failed to send unsubscription request"

/-- Error message when a ping cannot be enqueued. -/
def sendPingFailedMsg : String := "Failed to send ping"

/-- Error message when a close frame cannot be enqueued. -/
def closeFailedMsg : String := "Failed to close connection"

/-- `WebSocketApi::connect`, modeled up to the external transport: the
channel pair is created and the sender stored in `self.tx` BEFORE the URL is
parsed or the transport dialed, so even a failed connect leaves `tx` set (with
the receiving end dropped).  `urlValid` / `transportOk` stand for the two
external outcomes.  Returns (result, updated api, outbound channel). -/
def WebSocketApi.connect (api : WebSocketApi) (urlValid transportOk : Bool) :
    Except Error Unit × WebSocketApi × MpscChannel :=
  let api2 : WebSocketApi := { api with tx := some () }
  if urlValid then
    if transportOk then (.ok (), api2, ⟨true, []⟩)
    else (.error (.webSocket "Connection error"), api2, ⟨false, []⟩)
  else (.error (.webSocket "Invalid URL"), api2, ⟨false, []⟩)

/-- `WebSocketApi::subscribe`: serialize the request (infallible for these
shapes), then send it as a text frame through `self.tx`, failing when no
channel handle is stored.  Takes `&self`: the api value is returned unchanged. -/
def WebSocketApi.subscribe (api : WebSocketApi) (ch : MpscChannel)
    (request : WebSocketSubscriptionRequest) :
    Except Error Unit × WebSocketApi × MpscChannel :=
  let payload := request.toJson
  match api.tx with
  | some _ =>
    let r := mpscSend ch (.text payload)
    if r.1 then (.ok (), api, r.2)
    else (.error (.webSocket sendSubscribeFailedMsg), api, r.2)
  | none => (.error (.webSocket notConnectedMsg), api, ch)

/-- `WebSocketApi::unsubscribe`: same shape as `subscribe`. -/
def WebSocketApi.unsubscribe (api : WebSocketApi) (ch : MpscChannel)
    (request : WebSocketUnsubscriptionRequest) :
    Except Error Unit × WebSocketApi × MpscChannel :=
  let payload := request.toJson
  match api.tx with
  | some _ =>
    let r := mpscSend ch (.text payload)
    if r.1 then (.ok (), api, r.2)
    else (.error (.webSocket sendUnsubscribeFailedMsg), api, r.2)
  | none => (.error (.webSocket notConnectedMsg), api, ch)

/-- `WebSocketApi::ping`: enqueue a transport-level ping with empty payload. -/
def WebSocketApi.ping (api : WebSocketApi) (ch : MpscChannel) :
    Except Error Unit × WebSocketApi × MpscChannel :=
  match api.tx with
  | some _ =>
    let r := mpscSend ch (.ping [])
    if r.1 then (.ok (), api, r.2)
    else (.error (.webSocket sendPingFailedMsg), api, r.2)
  | none => (.error (.webSocket notConnectedMsg), api, ch)

/-- `WebSocketApi::close`: enqueue a close frame through the same channel.
No session field is written: there is no state marking in the source. -/
def WebSocketApi.close (api : WebSocketApi) (ch : MpscChannel) :
    Except Error Unit × WebSocketApi × MpscChannel :=
  match api.tx with
  | some _ =>
    let r := mpscSend ch .close
    if r.1 then (.ok (), api, r.2)
    else (.error (.webSocket closeFailedMsg), api, r.2)
  | none => (.error (.webSocket notConnectedMsg), api, ch)

/-- A raw frame arriving on the transport, as discriminated by the reader
pump (text frames carried as their parse result). -/
inductive InFrame where
  | text (parsed : Option Json)
  | binary (len : Nat)
  | ping (data : List Nat)
  | pong (data : List Nat)
  | frameRaw
  | close
  | err

/-- The reader pump of `WebSocketApi::connect`: classify and forward text
frames, log-and-skip binary and raw frames, answer transport pings with a
pong on the shared write half, discard pongs, and terminate on a close frame
or a transport error.  Returns (messages delivered on the inbound handle,
pong frames written to the transport). -/
def readerPump : List InFrame → List (Except Error WebSocketMessage) × List OutMessage
  | [] => ([], [])
  | .text p :: rest =>
    let r := readerPump rest
    (classify p :: r.1, r.2)
  | .binary _ :: rest => readerPump rest
  | .ping d :: rest =>
    let r := readerPump rest
    (r.1, OutMessage.pong d :: r.2)
  | .pong _ :: rest => readerPump rest
  | .frameRaw :: rest => readerPump rest
  | .close :: _ => ([], [])
  | .err :: _ => ([], [])

/-! The rate limiter (`src/api/rate_limiter.rs`). -/

/-- One more than the largest `u32`. -/
def u32Mod : Nat := 2 ^ 32

/-- The largest `u32`, the saturation point of the `as u32` cast. -/
def u32Max : Nat := 2 ^ 32 - 1

/-- Nanoseconds per second, for `Duration::from_secs`. -/
def nsPerSec : Nat := 1000000000

/-- `Duration::from_secs n` in nanoseconds. -/
def secs (n : Nat) : Nat := n * nsPerSec

/-- The `TokenBucket` struct.  `tokens` / `max_tokens` are `u32`; durations
and instants are exact nanosecond counts. -/
structure TokenBucket where
  max_tokens : Nat
  tokens : Nat
  refill_time : Nat
  last_refill : Nat
deriving DecidableEq

/-- `TokenBucket::new`: a full bucket stamped with the construction instant. -/
def TokenBucket.new (max_tokens refill_time now : Nat) : TokenBucket :=
  ⟨max_tokens, max_tokens, refill_time, now⟩

/-- `TokenBucket::refill` at instant `now`.  `elapsed` is a saturating
difference (`Instant::duration_since`).  The refill count is the truncated
`f64` ratio cast to `u32`: exact floor saturated at `u32Max`; with a zero
refill period the ratio is `NaN` (cast to 0) for zero elapsed and infinity
(cast to `u32Max`) otherwise — construction never makes such a bucket.  The
`u32` sum wraps modulo `2 ^ 32` (release semantics). -/
def TokenBucket.refill (b : TokenBucket) (now : Nat) : TokenBucket :=
  let elapsed := now - b.last_refill
  if b.refill_time ≤ elapsed then
    let refills :=
      if b.refill_time = 0 then (if elapsed = 0 then 0 else u32Max)
      else min (elapsed / b.refill_time) u32Max
    let new_tokens := (b.tokens + refills) % u32Mod
    { b with tokens := min new_tokens b.max_tokens, last_refill := now }
  else b

/-- `TokenBucket::take`: refill, then decrement if a token is available. -/
def TokenBucket.take (b : TokenBucket) (now : Nat) : Bool × TokenBucket :=
  let b2 := b.refill now
  if 0 < b2.tokens then (true, { b2 with tokens := b2.tokens - 1 })
  else (false, b2)

/-- `TokenBucket::time_until_next_token`: refill (at instant `tr`), then if
the bucket is still empty, the remainder of the current period measured at a
fresh instant `te` (the function takes `Instant::now()` again). -/
def TokenBucket.time_until_next_token (b : TokenBucket) (tr te : Nat) :
    Nat × TokenBucket :=
  let b2 := b.refill tr
  if 0 < b2.tokens then (0, b2)
  else
    let elapsed := te - b2.last_refill
    if b2.refill_time ≤ elapsed then (0, b2)
    else (b2.refill_time - elapsed, b2)

/-- The four rate tiers. -/
inductive Tier where
  | Tier1
  | Tier2
  | Tier3
  | Tier4
deriving DecidableEq

/-- The limiter state: models the `HashMap<Tier, TokenBucket>` behind the
mutex, total because `RateLimiter::new` inserts every tier (the source
`unwrap`s the lookup). -/
def RateLimiter : Type := Tier → TokenBucket

/-- `RateLimiter::new` at construction instant `now`: all four buckets are
created eagerly and full. -/
def RateLimiter.new (now : Nat) : RateLimiter := fun tier =>
  match tier with
  | .Tier1 => TokenBucket.new 15 (secs 45) now
  | .Tier2 => TokenBucket.new 20 (secs 60) now
  | .Tier3 => TokenBucket.new 20 (secs 60) now
  | .Tier4 => TokenBucket.new 15 (secs 60) now

/-- Write back one tier's bucket (the in-place mutation under the lock). -/
def RateLimiter.setTier (rl : RateLimiter) (tier : Tier) (b : TokenBucket) :
    RateLimiter :=
  fun t => if t = tier then b else rl t

/-- `RateLimiter::acquire`: under the lock, `take` from the tier's bucket;
on failure ask the same bucket for the remaining wait.  The three instants
are the successive `Instant::now()` calls the failing path can make
(`take`'s refill, `time_until_next_token`'s refill, its fresh reading). -/
def RateLimiter.acquire (rl : RateLimiter) (tier : Tier) (t1 t2 t3 : Nat) :
    Nat × RateLimiter :=
  let r := (rl tier).take t1
  if r.1 then (0, rl.setTier tier r.2)
  else
    let r2 := r.2.time_until_next_token t2 t3
    (r2.1, rl.setTier tier r2.2)

/-- Observable steps of `RateLimiter::wait`: the single `acquire` call with
the duration it returned, and the sleep when that duration is non-zero. -/
inductive LimiterEvent where
  | acquired (wait_returned : Nat)
  | slept (duration : Nat)
deriving DecidableEq

/-- Whether an event is the `acquire` call. -/
def LimiterEvent.isAcquire : LimiterEvent → Bool
  | .acquired _ => true
  | .slept _ => false

/-- `RateLimiter::wait`: one `acquire`, then a sleep for exactly the returned
duration when it is non-zero; no re-acquisition after the sleep.  Returns the
limiter state and the trace of observable events. -/
def RateLimiter.wait (rl : RateLimiter) (tier : Tier) (t1 t2 t3 : Nat) :
    RateLimiter × List LimiterEvent :=
  let r := rl.acquire tier t1 t2 t3
  if 0 < r.1 then (r.2, [.acquired r.1, .slept r.1])
  else (r.2, [.acquired r.1])

/-- Repeated back-to-back `acquire` calls on one tier, all at one instant
(`n` calls, collecting the returned waits in order). -/
def RateLimiter.acquireRepeat (rl : RateLimiter) (tier : Tier) (t : Nat) :
    Nat → List Nat × RateLimiter
  | 0 => ([], rl)
  | n + 1 =>
    let r := rl.acquire tier t t t
    let rest := RateLimiter.acquireRepeat r.2 tier t n
    (r.1 :: rest.1, rest.2)

/-- One `acquire` call with its tier and its three instants. -/
structure AcqCall where
  tier : Tier
  t1 : Nat
  t2 : Nat
  t3 : Nat

/-- The instants of a call sequence are consistent with the monotone
`Instant` clock: each call's instants are ordered and not before the
previous call's last instant (nor before the construction instant). -/
def chronological : Nat → List AcqCall → Bool
  | _, [] => true
  | t, c :: cs =>
    decide (t ≤ c.t1) && decide (c.t1 ≤ c.t2) && decide (c.t2 ≤ c.t3) &&
    chronological c.t3 cs

/-- All intermediate limiter states of a call sequence, the initial state
included. -/
def acquireTrace (rl : RateLimiter) : List AcqCall → List RateLimiter
  | [] => [rl]
  | c :: cs => rl :: acquireTrace (rl.acquire c.tier c.t1 c.t2 c.t3).2 cs

/-! Concrete inputs used by witnesses and counterexamples. -/

/-- The spec's channel-data example frame. -/
def dataArrayExample : Json :=
  Json.arr [Json.num 1, Json.num 2, Json.str "ticker", Json.str "XBT/USD"]

/-- Fields of a minimal ping control object. -/
def pingEventFields : List (String × Json) := [("event", Json.str "ping")]

/-- A session that completed `connect` successfully. -/
def connectedApi : WebSocketApi := ⟨"wss://ws.kraken.com", some ()⟩

/-- An outbound channel whose writer pump is running. -/
def liveChannel : MpscChannel := ⟨true, []⟩

/-- A limiter whose buckets hold a single token (45 s period, built at 0). -/
def oneTokenLimiter : RateLimiter := fun _ => TokenBucket.new 1 (secs 45) 0

/-- A mid-life bucket for exercising the refill formula. -/
def refillWitnessBucket : TokenBucket := ⟨15, 3, 45, 0⟩

/-- A two-call chronological acquire sequence. -/
def chronCalls : List AcqCall := [⟨Tier.Tier1, 5, 6, 7⟩, ⟨Tier.Tier2, 7, 8, 9⟩]

/-! Helper lemmas. -/

/-- Once the reader pump hits a close frame it stops: the frames after it
contribute nothing to either output. -/
theorem readerPump_stops_at_close (xs ys : List InFrame) :
    readerPump (xs ++ InFrame.close :: ys) = readerPump (xs ++ [InFrame.close]) := by
  induction xs with
  | nil => rfl
  | cons f rest ih => cases f <;> simp [readerPump, ih]

/-- Reading back the bucket just written. -/
theorem RateLimiter.setTier_same (rl : RateLimiter) (tier : Tier) (b : TokenBucket) :
    rl.setTier tier b tier = b := by
  simp [RateLimiter.setTier]

/-- Other tiers are untouched by a write-back. -/
theorem RateLimiter.setTier_other (rl : RateLimiter) (tier t : Tier) (b : TokenBucket)
    (h : t ≠ tier) : rl.setTier tier b t = rl t := by
  simp [RateLimiter.setTier, h]

/-- A map with no event key leaves an already-filled heartbeat state alone. -/
theorem heartbeatFromFields_no_event (fs : List (String × Json))
    (et : WebSocketMessageType) (h : ∀ kv ∈ fs, ¬ kv.1 = "event") :
    heartbeatFromFields fs (some et) = some et := by
  induction fs with
  | nil => rfl
  | cons kv rest ih =>
    obtain ⟨k, x⟩ := kv
    have hk : ¬ k = "event" := h (k, x) (List.mem_cons_self _ _)
    simp only [heartbeatFromFields, if_neg hk]
    exact ih fun kv2 hm => h kv2 (List.mem_cons_of_mem _ hm)

/-- A map with exactly one event key, whose value is a recognized message
type, matches the `Heartbeat` shape with that type. -/
theorem heartbeatFromFields_single_event (fs : List (String × Json))
    (et : WebSocketMessageType)
    (hcount : (fs.filter fun kv => decide (kv.1 = "event")).length = 1)
    (hval : ∀ kv ∈ fs, kv.1 = "event" → deMessageType kv.2 = some et) :
    heartbeatFromFields fs none = some et := by
  induction fs with
  | nil => simp at hcount
  | cons kv rest ih =>
    obtain ⟨k, x⟩ := kv
    by_cases hk : k = "event"
    · have hx : deMessageType x = some et := hval (k, x) (List.mem_cons_self _ _) hk
      have hrest : (rest.filter fun kv => decide (kv.1 = "event")).length = 0 := by
        simp only [List.filter_cons, hk] at hcount
        simpa using hcount
      have hnone : ∀ kv ∈ rest, ¬ kv.1 = "event" := by
        intro kv2 hm heq
        have : kv2 ∈ rest.filter fun kv => decide (kv.1 = "event") :=
          List.mem_filter.mpr ⟨hm, by simp [heq]⟩
        rw [List.length_eq_zero.mp hrest] at this
        simp at this
      simp only [heartbeatFromFields, if_pos hk, hx]
      exact heartbeatFromFields_no_event rest et hnone
    · simp only [heartbeatFromFields, if_neg hk]
      have hcount2 : (rest.filter fun kv => decide (kv.1 = "event")).length = 1 := by
        simpa [List.filter_cons, hk] using hcount
      exact ih hcount2 fun kv2 hm h2 => hval kv2 (List.mem_cons_of_mem _ hm) h2

/-- Claim C1, counterexample.  The claim says that after `close()` on a
connected session every subsequent `subscribe` returns an error.  In the
code `close()` writes no session state (there is no Closing mark and no
state field at all): on a freshly connected session, `close()` succeeds and
a `subscribe` issued right after it also succeeds and silently enqueues its
frame behind the close frame. -/
theorem close_then_subscribe_succeeds_cex :
    (((WebSocketApi.new "wss://ws.kraken.com").connect true true).2.1.close
        ((WebSocketApi.new "wss://ws.kraken.com").connect true true).2.2).1
      = Except.ok () ∧
    ((((WebSocketApi.new "wss://ws.kraken.com").connect true true).2.1.close
        ((WebSocketApi.new "wss://ws.kraken.com").connect true true).2.2).2.1.subscribe
      (((WebSocketApi.new "wss://ws.kraken.com").connect true true).2.1.close
        ((WebSocketApi.new "wss://ws.kraken.com").connect true true).2.2).2.2
      WebSocketSubscriptionRequest.new).1 = Except.ok () ∧
    ((((WebSocketApi.new "wss://ws.kraken.com").connect true true).2.1.close
        ((WebSocketApi.new "wss://ws.kraken.com").connect true true).2.2).2.1.subscribe
      (((WebSocketApi.new "wss://ws.kraken.com").connect true true).2.1.close
        ((WebSocketApi.new "wss://ws.kraken.com").connect true true).2.2).2.2
      WebSocketSubscriptionRequest.new).2.2.queue
      = [OutMessage.close, OutMessage.text WebSocketSubscriptionRequest.new.toJson] :=
  ⟨rfl, rfl, rfl⟩

/-- Claim C1 (amended): `close()` on a connected session only enqueues a
close control frame and changes no session field (the code keeps no session
state, so there is no Closing mark); subsequent `subscribe` calls still
succeed and enqueue while the outbound channel exists; and once the reader
pump observes a close frame it terminates, so no further messages are
delivered on the inbound handle. -/
theorem close_enqueues_only_and_inbound_stops (api : WebSocketApi)
    (ch : MpscChannel) (req : WebSocketSubscriptionRequest)
    (hc : api.tx = some ()) (hr : ch.receiverAlive = true) :
    (api.close ch).1 = Except.ok () ∧
    (api.close ch).2.1 = api ∧
    (api.close ch).2.2.queue = ch.queue ++ [OutMessage.close] ∧
    ((api.close ch).2.1.subscribe (api.close ch).2.2 req).1 = Except.ok () ∧
    ((api.close ch).2.1.subscribe (api.close ch).2.2 req).2.2.queue
      = ch.queue ++ [OutMessage.close, OutMessage.text req.toJson] ∧
    (∀ xs ys, readerPump (xs ++ InFrame.close :: ys)
      = readerPump (xs ++ [InFrame.close])) := by
  refine ⟨?_, ?_, ?_, ?_, ?_, readerPump_stops_at_close⟩ <;>
    simp [WebSocketApi.close, WebSocketApi.subscribe, mpscSend, hc, hr]

/-- Witness for the amended claim C1 at a concrete connected session. -/
theorem close_semantics_witness :
    connectedApi.tx = some () ∧ liveChannel.receiverAlive = true ∧
    (connectedApi.close liveChannel).1 = Except.ok () ∧
    ((connectedApi.close liveChannel).2.1.subscribe
      (connectedApi.close liveChannel).2.2 WebSocketSubscriptionRequest.new).1
      = Except.ok () :=
  ⟨rfl, rfl,
    (close_enqueues_only_and_inbound_stops connectedApi liveChannel
      WebSocketSubscriptionRequest.new rfl rfl).1,
    (close_enqueues_only_and_inbound_stops connectedApi liveChannel
      WebSocketSubscriptionRequest.new rfl rfl).2.2.2.1⟩

/-- Claim C9: `subscribe` / `unsubscribe` fail with the not-connected error
exactly when no outbound channel handle is stored, and on a session that has
not called `connect()` (where `tx` is still `None`) the call returns that
error and enqueues nothing. -/
theorem subscribe_not_connected_iff (api : WebSocketApi) (ch : MpscChannel)
    (req : WebSocketSubscriptionRequest) (ureq : WebSocketUnsubscriptionRequest)
    (url : String) :
    ((api.subscribe ch req).1 = Except.error (.webSocket notConnectedMsg)
      ↔ api.tx = none) ∧
    ((api.unsubscribe ch ureq).1 = Except.error (.webSocket notConnectedMsg)
      ↔ api.tx = none) ∧
    (WebSocketApi.new url).subscribe ch req
      = (Except.error (.webSocket notConnectedMsg), WebSocketApi.new url, ch) := by
  refine ⟨?_, ?_, ?_⟩
  · cases htx : api.tx with
    | none => simp [WebSocketApi.subscribe, htx]
    | some u =>
      simp only [WebSocketApi.subscribe, htx]
      constructor
      · intro h
        split at h <;>
          simp [notConnectedMsg, sendSubscribeFailedMsg] at h
      · intro h
        simp at h
  · cases htx : api.tx with
    | none => simp [WebSocketApi.unsubscribe, htx]
    | some u =>
      simp only [WebSocketApi.unsubscribe, htx]
      constructor
      · intro h
        split at h <;>
          simp [notConnectedMsg, sendUnsubscribeFailedMsg] at h
      · intro h
        simp at h
  · simp [WebSocketApi.subscribe, WebSocketApi.new]

/-- Claim C10: the sender handle is assigned only by `connect()`; the four
control operations take the session by shared reference and return every
session field unchanged, whether they succeed or fail. -/
theorem control_ops_preserve_session (api : WebSocketApi) (ch : MpscChannel)
    (req : WebSocketSubscriptionRequest) (ureq : WebSocketUnsubscriptionRequest)
    (url : String) (uv tok : Bool) :
    (api.subscribe ch req).2.1 = api ∧
    (api.unsubscribe ch ureq).2.1 = api ∧
    (api.ping ch).2.1 = api ∧
    (api.close ch).2.1 = api ∧
    ((api.connect uv tok).2.1).tx = some () ∧
    (WebSocketApi.new url).tx = none := by
  refine ⟨?_, ?_, ?_, ?_, ?_, rfl⟩
  · cases htx : api.tx <;> simp [WebSocketApi.subscribe, htx] <;> split <;> rfl
  · cases htx : api.tx <;> simp [WebSocketApi.unsubscribe, htx] <;> split <;> rfl
  · cases htx : api.tx <;> simp [WebSocketApi.ping, htx] <;> split <;> rfl
  · cases htx : api.tx <;> simp [WebSocketApi.close, htx] <;> split <;> rfl
  · simp only [WebSocketApi.connect]
    split <;> first | rfl | (split <;> rfl)

/-- Claim C2, counterexample.  The claim says an object whose `event` field
is a ping or pong classifies as the `Ping` / `Pong` variant.  The untagged
parse tries `Heartbeat` first, and that variant accepts any recognized
`event` value while ignoring other keys, so both objects classify as
`Heartbeat`; the `Ping` / `Pong` variants are unreachable for them. -/
theorem ping_object_classified_as_heartbeat_cex :
    classify (some (Json.obj [("event", Json.str "ping")]))
      = Except.ok (WebSocketMessage.heartbeat .ping) ∧
    classify (some (Json.obj [("event", Json.str "pong")]))
      = Except.ok (WebSocketMessage.heartbeat .pong) :=
  ⟨rfl, rfl⟩

/-- Claim C2 (amended): for every text frame that is a JSON object with
exactly one `event` field whose value is heartbeat, ping or pong, and which
does not match the earlier `SystemStatus` / `SubscriptionStatus` untagged
shapes, classification returns the `Heartbeat` variant carrying that event
value — never the `Ping` or `Pong` variant, since `Heartbeat` is declared
first and accepts any recognized event value. -/
theorem ping_pong_objects_classified_heartbeat (fs : List (String × Json))
    (et : WebSocketMessageType)
    (hcount : (fs.filter fun kv => decide (kv.1 = "event")).length = 1)
    (hval : ∀ kv ∈ fs, kv.1 = "event" → deMessageType kv.2 = some et)
    (hmem : et = .heartbeat ∨ et = .ping ∨ et = .pong)
    (hs1 : matchSystemStatus (Json.obj fs) = none)
    (hs2 : matchSubscriptionStatus (Json.obj fs) = none) :
    classify (some (Json.obj fs)) = Except.ok (WebSocketMessage.heartbeat et) := by
  have hh : matchHeartbeat (Json.obj fs) = some (.heartbeat et) := by
    simp [matchHeartbeat, heartbeatFromFields_single_event fs et hcount hval]
  simp [classify, deWebSocketMessage, hs1, hs2, hh]

/-- Witness for the amended claim C2 at the minimal ping object. -/
theorem ping_heartbeat_witness :
    ((pingEventFields.filter fun kv => decide (kv.1 = "event")).length = 1) ∧
    classify (some (Json.obj pingEventFields))
      = Except.ok (WebSocketMessage.heartbeat .ping) :=
  ⟨by decide,
    ping_pong_objects_classified_heartbeat pingEventFields .ping (by decide)
      (by decide) (Or.inr (Or.inl rfl)) rfl rfl⟩

/-- Claim C8: on input matching none of the six structured control shapes,
a JSON array classifies as `DataArray` preserving its elements (count and
order), any other valid JSON classifies as `Generic` (never a parse error),
and syntactically invalid text yields the parse error; in particular the
spec's example array yields a `DataArray` of its four elements in order. -/
theorem fallback_chain_dataarray_generic (v : Json)
    (h : controlMatch v = false) :
    (∀ xs, v = Json.arr xs → classify (some v) = Except.ok (.dataArray xs)) ∧
    ((∀ xs, v ≠ Json.arr xs) → classify (some v) = Except.ok (.generic v)) ∧
    classify none = Except.error (.webSocket failedParseMsg) ∧
    classify (some dataArrayExample)
      = Except.ok (.dataArray [Json.num 1, Json.num 2, Json.str "ticker",
          Json.str "XBT/USD"]) := by
  have hall : ((((matchSystemStatus v = none ∧ matchSubscriptionStatus v = none) ∧
      matchHeartbeat v = none) ∧ matchPing v = none) ∧ matchPong v = none) ∧
      matchError v = none := by
    simpa [controlMatch, Bool.or_eq_false_iff] using h
  obtain ⟨⟨⟨⟨⟨h1, h2⟩, h3⟩, h4⟩, h5⟩, h6⟩ := hall
  refine ⟨?_, ?_, rfl, rfl⟩
  · rintro xs rfl
    simp [classify, deWebSocketMessage, h1, h2, h3, h4, h5, h6]
  · intro hne
    have hv : deWebSocketMessage v = .generic v := by
      cases v
      case arr xs => exact absurd rfl (hne xs)
      all_goals simp [deWebSocketMessage, h1, h2, h3, h4, h5, h6]
    simp [classify, hv]

/-- Witness for claim C8 at the spec's example array. -/
theorem fallback_chain_witness :
    controlMatch dataArrayExample = false ∧
    classify (some dataArrayExample)
      = Except.ok (.dataArray [Json.num 1, Json.num 2, Json.str "ticker",
          Json.str "XBT/USD"]) :=
  ⟨rfl, (fallback_chain_dataarray_generic dataArrayExample rfl).1 _ rfl⟩

/-- A refill whose elapsed time is short of a full period is a no-op. -/
theorem TokenBucket.refill_noop (b : TokenBucket) (now : Nat)
    (h : now - b.last_refill < b.refill_time) : b.refill now = b := by
  unfold TokenBucket.refill
  rw [if_neg (by omega)]

/-- Refilling preserves the bucket's configuration, keeps the token bound,
and moves `last_refill` forward but not past the reading instant. -/
theorem TokenBucket.refill_inv (b : TokenBucket) (now : Nat)
    (htk : b.tokens ≤ b.max_tokens) (hlr : b.last_refill ≤ now) :
    (b.refill now).tokens ≤ (b.refill now).max_tokens ∧
    b.last_refill ≤ (b.refill now).last_refill ∧
    (b.refill now).last_refill ≤ now ∧
    (b.refill now).max_tokens = b.max_tokens ∧
    (b.refill now).refill_time = b.refill_time := by
  by_cases h : b.refill_time ≤ now - b.last_refill
  · simp only [TokenBucket.refill, if_pos h]
    exact ⟨Nat.min_le_right _ _, hlr, Nat.le_refl _, trivial, trivial⟩
  · simp only [TokenBucket.refill, if_neg h]
    exact ⟨htk, Nat.le_refl _, hlr, trivial, trivial⟩

/-- Same facts for the bucket left behind by `take`. -/
theorem TokenBucket.take_inv (b : TokenBucket) (now : Nat)
    (htk : b.tokens ≤ b.max_tokens) (hlr : b.last_refill ≤ now) :
    ((b.take now).2).tokens ≤ ((b.take now).2).max_tokens ∧
    b.last_refill ≤ ((b.take now).2).last_refill ∧
    ((b.take now).2).last_refill ≤ now ∧
    ((b.take now).2).max_tokens = b.max_tokens ∧
    ((b.take now).2).refill_time = b.refill_time := by
  have h := TokenBucket.refill_inv b now htk hlr
  by_cases h0 : 0 < (b.refill now).tokens
  · simp only [TokenBucket.take, if_pos h0]
    exact ⟨Nat.le_trans (Nat.sub_le _ _) h.1, h.2.1, h.2.2.1, h.2.2.2.1, h.2.2.2.2⟩
  · simp only [TokenBucket.take, if_neg h0]
    exact h

/-- The bucket left behind by `time_until_next_token` is just its refill. -/
theorem TokenBucket.tun_snd (b : TokenBucket) (tr te : Nat) :
    (b.time_until_next_token tr te).2 = b.refill tr := by
  by_cases h0 : 0 < (b.refill tr).tokens
  · simp only [TokenBucket.time_until_next_token, if_pos h0]
  · by_cases h1 : (b.refill tr).refill_time ≤ te - (b.refill tr).last_refill
    · simp only [TokenBucket.time_until_next_token, if_neg h0, if_pos h1]
    · simp only [TokenBucket.time_until_next_token, if_neg h0, if_neg h1]

/-- Same facts for the bucket left behind by `time_until_next_token`
(refilled at `tr`, wait measured at `te`). -/
theorem TokenBucket.tun_inv (b : TokenBucket) (tr te : Nat)
    (htk : b.tokens ≤ b.max_tokens) (hlr : b.last_refill ≤ tr) (hre : tr ≤ te) :
    ((b.time_until_next_token tr te).2).tokens
      ≤ ((b.time_until_next_token tr te).2).max_tokens ∧
    b.last_refill ≤ ((b.time_until_next_token tr te).2).last_refill ∧
    ((b.time_until_next_token tr te).2).last_refill ≤ te ∧
    ((b.time_until_next_token tr te).2).max_tokens = b.max_tokens ∧
    ((b.time_until_next_token tr te).2).refill_time = b.refill_time := by
  have h := TokenBucket.refill_inv b tr htk hlr
  rw [TokenBucket.tun_snd]
  exact ⟨h.1, h.2.1, Nat.le_trans h.2.2.1 hre, h.2.2.2.1, h.2.2.2.2⟩

/-- Claim C3: on every acquire path, the lazy refill computes
`refills = floor(elapsed / refill_period)` from the elapsed wall-clock time
since `last_refill`, sets `tokens = min(tokens + refills, max_tokens)`, and
advances `last_refill` only when at least one full period has elapsed
(otherwise the bucket is untouched).  The overflow hypothesis confines the
statement to inputs on which the `u32` sum is defined (elapsed below about
`2 ^ 32` refill periods; beyond it debug builds panic and release builds
wrap). -/
theorem refill_floor_formula (b : TokenBucket) (now : Nat)
    (hle : b.last_refill ≤ now) (hp : 0 < b.refill_time)
    (hov : b.tokens + (now - b.last_refill) / b.refill_time < u32Mod) :
    (b.refill_time ≤ now - b.last_refill →
      (b.refill now).tokens
        = min (b.tokens + (now - b.last_refill) / b.refill_time) b.max_tokens ∧
      (b.refill now).last_refill = now) ∧
    (now - b.last_refill < b.refill_time → b.refill now = b) := by
  constructor
  · intro hge
    have h0 : ¬ b.refill_time = 0 := by omega
    have hsat : (now - b.last_refill) / b.refill_time ≤ u32Max := by
      have : u32Max + 1 = u32Mod := by
        unfold u32Max u32Mod
        omega
      omega
    have hmod : (b.tokens + (now - b.last_refill) / b.refill_time) % u32Mod
        = b.tokens + (now - b.last_refill) / b.refill_time :=
      Nat.mod_eq_of_lt hov
    simp only [TokenBucket.refill, if_pos hge, if_neg h0, Nat.min_eq_left hsat, hmod]
    constructor <;> trivial
  · intro hlt
    exact TokenBucket.refill_noop b now hlt

/-- Witness for claim C3: a 15-capacity bucket holding 3 tokens, period 45,
read 90 time units after its last refill, gains exactly two tokens. -/
theorem refill_floor_formula_witness :
    refillWitnessBucket.last_refill ≤ 90 ∧
    0 < refillWitnessBucket.refill_time ∧
    refillWitnessBucket.tokens
      + (90 - refillWitnessBucket.last_refill) / refillWitnessBucket.refill_time
      < u32Mod ∧
    refillWitnessBucket.refill_time ≤ 90 - refillWitnessBucket.last_refill ∧
    (refillWitnessBucket.refill 90).tokens
      = min (refillWitnessBucket.tokens
          + (90 - refillWitnessBucket.last_refill) / refillWitnessBucket.refill_time)
        refillWitnessBucket.max_tokens ∧
    (refillWitnessBucket.refill 90).last_refill = 90 :=
  ⟨by decide, by decide, by decide, by decide,
    ((refill_floor_formula refillWitnessBucket 90 (by decide) (by decide)
      (by decide)).1 (by decide)).1,
    ((refill_floor_formula refillWitnessBucket 90 (by decide) (by decide)
      (by decide)).1 (by decide)).2⟩

/-- Claim C4: `wait(tier)` makes exactly one `acquire` call; its event trace
is the single acquire followed by a sleep of exactly the returned duration
when that duration is non-zero, and nothing else; the limiter state after
`wait` is exactly the state after the one `acquire`, so the sleep neither
consumes nor reserves a token — consumption happens only inside `acquire`. -/
theorem wait_single_acquire_exact_sleep (rl : RateLimiter) (tier : Tier)
    (t1 t2 t3 : Nat) :
    (rl.wait tier t1 t2 t3).1 = (rl.acquire tier t1 t2 t3).2 ∧
    ((rl.wait tier t1 t2 t3).2.filter LimiterEvent.isAcquire)
      = [.acquired (rl.acquire tier t1 t2 t3).1] ∧
    (rl.wait tier t1 t2 t3).2
      = (if 0 < (rl.acquire tier t1 t2 t3).1
         then [.acquired (rl.acquire tier t1 t2 t3).1,
               .slept (rl.acquire tier t1 t2 t3).1]
         else [.acquired (rl.acquire tier t1 t2 t3).1]) := by
  by_cases h : 0 < (rl.acquire tier t1 t2 t3).1 <;>
    simp [RateLimiter.wait, h, LimiterEvent.isAcquire, List.filter]

/-- A `take` at the very instant of the bucket's `last_refill` stamp (with a
positive period) does not refill and, on a non-empty bucket, decrements. -/
theorem take_at_stamp (b : TokenBucket) (t : Nat) (hl : b.last_refill = t)
    (hp : 0 < b.refill_time) (h0 : 0 < b.tokens) :
    b.take t = (true, { b with tokens := b.tokens - 1 }) := by
  have hno : b.refill t = b := TokenBucket.refill_noop b t (by omega)
  simp only [TokenBucket.take, hno, if_pos h0]

/-- Back-to-back acquires at the construction instant return zero wait as
long as tokens remain. -/
theorem acquireRepeat_full (n : Nat) :
    ∀ (rl : RateLimiter) (tier : Tier) (t : Nat),
    (rl tier).last_refill = t → 0 < (rl tier).refill_time →
    n ≤ (rl tier).tokens →
    (rl.acquireRepeat tier t n).1 = List.replicate n 0 := by
  induction n with
  | zero => intro rl tier t _ _ _; rfl
  | succ n ih =>
    intro rl tier t hl hp hn
    have htake := take_at_stamp (rl tier) t hl hp (by omega)
    have hacq : rl.acquire tier t t t
        = (0, rl.setTier tier { rl tier with tokens := (rl tier).tokens - 1 }) := by
      simp only [RateLimiter.acquire, htake]
      rfl
    have hset : (rl.setTier tier { rl tier with tokens := (rl tier).tokens - 1 }) tier
        = { rl tier with tokens := (rl tier).tokens - 1 } :=
      RateLimiter.setTier_same _ _ _
    have hrest : ((rl.setTier tier
        { rl tier with tokens := (rl tier).tokens - 1 }).acquireRepeat tier t n).1
        = List.replicate n 0 := by
      apply ih
      · rw [hset]
        exact hl
      · rw [hset]
        exact hp
      · rw [hset]
        show n ≤ (rl tier).tokens - 1
        omega
    simp [RateLimiter.acquireRepeat, hacq, hrest, List.replicate]

/-- Claim C5: the four tier buckets are created eagerly and full at
construction with the documented parameters (Tier1 15 / 45 s, Tier2 20 / 60 s,
Tier3 20 / 60 s, Tier4 15 / 60 s) and `last_refill = now`; for every tier the
first `max_tokens` back-to-back acquires after construction all return zero
wait. -/
theorem eager_full_construction_first_acquires_free (t0 : Nat) (tier : Tier) :
    (RateLimiter.new t0 tier).tokens = (RateLimiter.new t0 tier).max_tokens ∧
    (RateLimiter.new t0 tier).last_refill = t0 ∧
    (RateLimiter.new t0 Tier.Tier1).max_tokens = 15 ∧
    (RateLimiter.new t0 Tier.Tier1).refill_time = secs 45 ∧
    (RateLimiter.new t0 Tier.Tier2).max_tokens = 20 ∧
    (RateLimiter.new t0 Tier.Tier2).refill_time = secs 60 ∧
    (RateLimiter.new t0 Tier.Tier3).max_tokens = 20 ∧
    (RateLimiter.new t0 Tier.Tier3).refill_time = secs 60 ∧
    (RateLimiter.new t0 Tier.Tier4).max_tokens = 15 ∧
    (RateLimiter.new t0 Tier.Tier4).refill_time = secs 60 ∧
    ((RateLimiter.new t0).acquireRepeat tier t0
        (RateLimiter.new t0 tier).max_tokens).1
      = List.replicate (RateLimiter.new t0 tier).max_tokens 0 := by
  refine ⟨?_, ?_, rfl, rfl, rfl, rfl, rfl, rfl, rfl, rfl, ?_⟩
  · cases tier <;> rfl
  · cases tier <;> rfl
  · apply acquireRepeat_full
    · cases tier <;> rfl
    · cases tier <;>
        first
        | exact (by decide : (0 : Nat) < secs 45)
        | exact (by decide : (0 : Nat) < secs 60)
    · cases tier <;> exact Nat.le_refl _

/-- Refilling never changes the bucket's configuration fields. -/
theorem TokenBucket.refill_config (b : TokenBucket) (now : Nat) :
    (b.refill now).refill_time = b.refill_time ∧
    (b.refill now).max_tokens = b.max_tokens := by
  by_cases h : b.refill_time ≤ now - b.last_refill
  · simp only [TokenBucket.refill, if_pos h]
    constructor <;> trivial
  · simp only [TokenBucket.refill, if_neg h]
    constructor <;> trivial

/-- With a positive period, right after a refill at `now` strictly less than
one full period of the stamp has been consumed. -/
theorem TokenBucket.refill_elapsed_lt (b : TokenBucket) (now : Nat)
    (hp : 0 < b.refill_time) :
    now - (b.refill now).last_refill < (b.refill now).refill_time := by
  by_cases h : b.refill_time ≤ now - b.last_refill
  · simp only [TokenBucket.refill, if_pos h]
    show now - now < b.refill_time
    omega
  · simp only [TokenBucket.refill, if_neg h]
    omega

/-- The bucket `take` leaves behind is the refill, possibly decremented. -/
theorem TokenBucket.take_snd_shape (b : TokenBucket) (now : Nat) :
    (b.take now).2 = b.refill now ∨
    (b.take now).2 = { b.refill now with tokens := (b.refill now).tokens - 1 } := by
  by_cases h : 0 < (b.refill now).tokens
  · right
    simp only [TokenBucket.take, if_pos h]
  · left
    simp only [TokenBucket.take, if_neg h]

/-- Unfolding one `acquire` to the underlying bucket operations. -/
theorem RateLimiter.acquire_snd_at (rl : RateLimiter) (tier : Tier)
    (t1 t2 t3 : Nat) :
    (rl.acquire tier t1 t2 t3).2 tier
      = (if ((rl tier).take t1).1 then ((rl tier).take t1).2
         else (((rl tier).take t1).2.time_until_next_token t2 t3).2) ∧
    (rl.acquire tier t1 t2 t3).1
      = (if ((rl tier).take t1).1 then 0
         else (((rl tier).take t1).2.time_until_next_token t2 t3).1) := by
  by_cases h : ((rl tier).take t1).1 <;>
    simp [RateLimiter.acquire, h, RateLimiter.setTier_same]

/-- After any single-instant acquire path the bucket keeps its period and has
consumed strictly less than one period of its stamp. -/
theorem bucket_after_same_instant (b : TokenBucket) (t : Nat)
    (hp : 0 < b.refill_time) :
    ((b.take t).2.refill_time = b.refill_time ∧
      t - (b.take t).2.last_refill < (b.take t).2.refill_time) ∧
    (((b.take t).2.time_until_next_token t t).2.refill_time = b.refill_time ∧
      t - ((b.take t).2.time_until_next_token t t).2.last_refill
        < ((b.take t).2.time_until_next_token t t).2.refill_time) := by
  have hcfg := TokenBucket.refill_config b t
  have hlt := TokenBucket.refill_elapsed_lt b t hp
  have h1 : (b.take t).2.refill_time = b.refill_time ∧
      t - (b.take t).2.last_refill < (b.take t).2.refill_time := by
    rcases TokenBucket.take_snd_shape b t with h | h <;> rw [h]
    · exact ⟨hcfg.1, hlt⟩
    · exact ⟨hcfg.1, hlt⟩
  refine ⟨h1, ?_⟩
  rw [TokenBucket.tun_snd, TokenBucket.refill_noop _ _ h1.2]
  exact h1

/-- An acquire against an empty bucket mid-period returns exactly the
remaining time of the current period. -/
theorem acquire_empty_same_instant (rl : RateLimiter) (tier : Tier) (t : Nat)
    (h0 : (rl tier).tokens = 0)
    (hlt : t - (rl tier).last_refill < (rl tier).refill_time) :
    (rl.acquire tier t t t).1
      = (rl tier).refill_time - (t - (rl tier).last_refill) := by
  have hno : (rl tier).refill t = rl tier := TokenBucket.refill_noop _ _ hlt
  have htake : (rl tier).take t = (false, rl tier) := by
    simp only [TokenBucket.take, hno, if_neg (by omega : ¬ 0 < (rl tier).tokens)]
  have htun : ((rl tier).time_until_next_token t t).1
      = (rl tier).refill_time - (t - (rl tier).last_refill) := by
    simp only [TokenBucket.time_until_next_token, hno,
      if_neg (by omega : ¬ 0 < (rl tier).tokens),
      if_neg (by omega : ¬ (rl tier).refill_time ≤ t - (rl tier).last_refill)]
  rw [(RateLimiter.acquire_snd_at rl tier t t t).2, htake]
  simpa using htun

/-- Claim C6: whenever an acquire leaves a tier's bucket with zero tokens,
the next acquire on that tier at the same instant returns a wait duration
that is strictly positive and at most that tier's refill period (and being a
`Nat` difference guarded by the period check, it is never negative). -/
theorem exhausted_bucket_wait_bounds (rl : RateLimiter) (tier : Tier) (t : Nat)
    (hp : 0 < (rl tier).refill_time)
    (hex : ((rl.acquire tier t t t).2 tier).tokens = 0) :
    0 < ((rl.acquire tier t t t).2.acquire tier t t t).1 ∧
    ((rl.acquire tier t t t).2.acquire tier t t t).1 ≤ (rl tier).refill_time := by
  have hb : ((rl.acquire tier t t t).2 tier).refill_time = (rl tier).refill_time ∧
      t - ((rl.acquire tier t t t).2 tier).last_refill
        < ((rl.acquire tier t t t).2 tier).refill_time := by
    rw [(RateLimiter.acquire_snd_at rl tier t t t).1]
    have hshape := bucket_after_same_instant (rl tier) t hp
    by_cases hc : ((rl tier).take t).1
    · rw [if_pos hc]
      exact hshape.1
    · rw [if_neg hc]
      exact hshape.2
  have hwait := acquire_empty_same_instant (rl.acquire tier t t t).2 tier t hex hb.2
  rw [hwait]
  have hrt := hb.1
  constructor
  · omega
  · omega

/-- Witness for claim C6: a one-token bucket, drained by one acquire at
instant 0, answers the next acquire with a full 45-second wait. -/
theorem exhausted_bucket_wait_witness :
    0 < (oneTokenLimiter Tier.Tier1).refill_time ∧
    ((oneTokenLimiter.acquire Tier.Tier1 0 0 0).2 Tier.Tier1).tokens = 0 ∧
    0 < ((oneTokenLimiter.acquire Tier.Tier1 0 0 0).2.acquire Tier.Tier1 0 0 0).1 ∧
    ((oneTokenLimiter.acquire Tier.Tier1 0 0 0).2.acquire Tier.Tier1 0 0 0).1
      ≤ (oneTokenLimiter Tier.Tier1).refill_time :=
  ⟨by decide, by decide,
    (exhausted_bucket_wait_bounds oneTokenLimiter Tier.Tier1 0 (by decide)
      (by decide)).1,
    (exhausted_bucket_wait_bounds oneTokenLimiter Tier.Tier1 0 (by decide)
      (by decide)).2⟩

/-- An acquire on one tier leaves every other tier's bucket untouched. -/
theorem acquire_other_tier (rl : RateLimiter) (tier c : Tier) (t1 t2 t3 : Nat)
    (h : tier ≠ c) : (rl.acquire c t1 t2 t3).2 tier = rl tier := by
  by_cases hc : ((rl c).take t1).1 <;>
    simp [RateLimiter.acquire, hc, RateLimiter.setTier_other _ _ _ _ h]

/-- One acquire call preserves the token bound of every tier and moves that
tier's stamp forward but not past the call's last instant. -/
theorem acquire_step_inv (rl : RateLimiter) (c : AcqCall) (tier : Tier)
    (h12 : c.t1 ≤ c.t2) (h23 : c.t2 ≤ c.t3)
    (htk : (rl tier).tokens ≤ (rl tier).max_tokens)
    (hlr : (rl tier).last_refill ≤ c.t1) :
    ((rl.acquire c.tier c.t1 c.t2 c.t3).2 tier).tokens
      ≤ ((rl.acquire c.tier c.t1 c.t2 c.t3).2 tier).max_tokens ∧
    (rl tier).last_refill ≤ ((rl.acquire c.tier c.t1 c.t2 c.t3).2 tier).last_refill ∧
    ((rl.acquire c.tier c.t1 c.t2 c.t3).2 tier).last_refill ≤ c.t3 := by
  by_cases heq : tier = c.tier
  · subst heq
    rw [(RateLimiter.acquire_snd_at rl c.tier c.t1 c.t2 c.t3).1]
    have h1 := TokenBucket.take_inv (rl c.tier) c.t1 htk hlr
    by_cases hc : ((rl c.tier).take c.t1).1
    · rw [if_pos hc]
      exact ⟨h1.1, h1.2.1, Nat.le_trans h1.2.2.1 (Nat.le_trans h12 h23)⟩
    · rw [if_neg hc]
      have h2 := TokenBucket.tun_inv ((rl c.tier).take c.t1).2 c.t2 c.t3 h1.1
        (Nat.le_trans h1.2.2.1 h12) h23
      exact ⟨h2.1, Nat.le_trans h1.2.1 h2.2.1, h2.2.2.1⟩
  · rw [acquire_other_tier rl tier c.tier _ _ _ heq]
    exact ⟨htk, Nat.le_refl _, Nat.le_trans hlr (Nat.le_trans h12 h23)⟩

/-- A trace always starts with its initial state. -/
theorem acquireTrace_cons_head (rl : RateLimiter) (cs : List AcqCall) :
    ∃ tl, acquireTrace rl cs = rl :: tl := by
  cases cs
  · exact ⟨[], rfl⟩
  · exact ⟨_, rfl⟩

/-- Invariant propagation along a chronological trace. -/
theorem acquireTrace_inv (calls : List AcqCall) :
    ∀ (rl : RateLimiter) (t : Nat), chronological t calls = true →
    (∀ tr : Tier, (rl tr).tokens ≤ (rl tr).max_tokens ∧ (rl tr).last_refill ≤ t) →
    ∀ tier : Tier,
      (∀ s ∈ acquireTrace rl calls, (s tier).tokens ≤ (s tier).max_tokens) ∧
      List.Chain' (fun a b => a ≤ b)
        ((acquireTrace rl calls).map fun s => (s tier).last_refill) := by
  induction calls with
  | nil =>
    intro rl t _ hinv tier
    constructor
    · intro s hs
      simp only [acquireTrace, List.mem_singleton] at hs
      rw [hs]
      exact (hinv tier).1
    · simp [acquireTrace]
  | cons c cs ih =>
    intro rl t hc hinv tier
    simp only [chronological, Bool.and_eq_true, decide_eq_true_eq] at hc
    obtain ⟨⟨⟨h1, h2⟩, h3⟩, h4⟩ := hc
    have hinv2 : ∀ tr : Tier,
        ((rl.acquire c.tier c.t1 c.t2 c.t3).2 tr).tokens
          ≤ ((rl.acquire c.tier c.t1 c.t2 c.t3).2 tr).max_tokens ∧
        ((rl.acquire c.tier c.t1 c.t2 c.t3).2 tr).last_refill ≤ c.t3 := by
      intro tr
      have hstep := acquire_step_inv rl c tr h2 h3 (hinv tr).1
        (Nat.le_trans (hinv tr).2 h1)
      exact ⟨hstep.1, hstep.2.2⟩
    have IH := ih (rl.acquire c.tier c.t1 c.t2 c.t3).2 c.t3 h4 hinv2 tier
    constructor
    · intro s hs
      simp only [acquireTrace, List.mem_cons] at hs
      rcases hs with hs | hs
      · rw [hs]
        exact (hinv tier).1
      · exact IH.1 s hs
    · have hmono : (rl tier).last_refill
          ≤ (((rl.acquire c.tier c.t1 c.t2 c.t3).2) tier).last_refill :=
        (acquire_step_inv rl c tier h2 h3 (hinv tier).1
          (Nat.le_trans (hinv tier).2 h1)).2.1
      obtain ⟨tl, htl⟩ := acquireTrace_cons_head (rl.acquire c.tier c.t1 c.t2 c.t3).2 cs
      show List.Chain' (fun a b => a ≤ b)
        ((rl :: acquireTrace (rl.acquire c.tier c.t1 c.t2 c.t3).2 cs).map
          fun s => (s tier).last_refill)
    /- continue below -/
      rw [htl, List.map_cons, List.map_cons]
      refine List.chain'_cons.mpr ⟨hmono, ?_⟩
      have h5 := IH.2
      rw [htl, List.map_cons] at h5
      exact h5

/-- Claim C7: starting from construction, along any chronological sequence of
acquire calls with arbitrary instants, every tier's token count stays at or
below `max_tokens` at every intermediate state (it is a `Nat`, hence also at
least 0), and the tier's `last_refill` stamp only moves forward. -/
theorem bucket_tokens_bounded_last_refill_monotone (t0 : Nat)
    (calls : List AcqCall) (tier : Tier)
    (hchron : chronological t0 calls = true) :
    (∀ s ∈ acquireTrace (RateLimiter.new t0) calls,
        (s tier).tokens ≤ (s tier).max_tokens) ∧
    List.Chain' (fun a b => a ≤ b)
      ((acquireTrace (RateLimiter.new t0) calls).map
        fun s => (s tier).last_refill) :=
  acquireTrace_inv calls (RateLimiter.new t0) t0 hchron
    (fun tr => by cases tr <;> exact ⟨Nat.le_refl _, Nat.le_refl _⟩) tier

/-- Witness for claim C7 on a concrete two-call chronological sequence. -/
theorem bucket_invariant_witness :
    chronological 0 chronCalls = true ∧
    (∀ s ∈ acquireTrace (RateLimiter.new 0) chronCalls,
        (s Tier.Tier1).tokens ≤ (s Tier.Tier1).max_tokens) :=
  ⟨by decide,
    (bucket_tokens_bounded_last_refill_monotone 0 chronCalls Tier.Tier1
      (by decide)).1⟩
